import Mathlib

/-!
Shallow embedding of `ULoadingScreenSubsystem` (DynamicLoadingScreen),
from `src/Private/LoadingScreenSubsystem.cpp` together with the header
(`src/unnamed/part_000`) and `ULoadingScreenSettings`
(`src/unnamed/part_001`).

Modelling conventions:
* C++ `double`/`float` times are modelled as `ℚ` (the relevant logic is
  ordering and subtraction only).
* The subsystem's mutable members form `State`; engine queries that the
  code reads (world context, world, begun-play, `GIsEditor`,
  `FPlatformTime::Seconds()`) form `Env`.
* The two multicast delegates are modelled as an emitted `Event` list,
  in broadcast order.
* `ULoadingScreenSettings` default-object fields form `Settings`.
-/

namespace DynamicLoadingScreen

/-- Configuration fields of `ULoadingScreenSettings` that the decision
logic reads (widget path and ZOrder are presentation-only and unread by
the decision code). -/
structure Settings where
  HoldLoadingScreenAdditionalSecs : ℚ
  bForceDisplayLoadingScreen : Bool
  bLogLoadingScreenReason : Bool
  bShowLoadingScreenAdditionalSecsInEditor : Bool
  deriving DecidableEq, Repr

/-- Engine-side inputs read during one evaluation: whether
`GetWorldContext()` is non-null, whether `Context->World()` is null,
`World->HasBegunPlay()`, `GIsEditor`, and the platform clock
`FPlatformTime::Seconds()`. -/
structure Env where
  hasWorldContext : Bool
  worldIsNull : Bool
  worldHasBegunPlay : Bool
  gIsEditor : Bool
  now : ℚ
  deriving DecidableEq, Repr

/-- Mutable members of `ULoadingScreenSubsystem` that the decision logic
touches.  `LoadingScreenLastDismissedTimestamp` keeps the source's
sentinel representation: `-1.0` means "not set". -/
structure State where
  bIsDisplayingLoadingScreen : Bool
  LoadingScreenStateReason : String
  LoadingScreenLastDismissedTimestamp : ℚ
  bIsDisplayedByGameLogic : Bool
  UserSpecifiedLoadingScreenReason : String
  deriving DecidableEq, Repr

/-- Initial state: bool members of a `UObject` are zero-initialized and
the header gives `LoadingScreenLastDismissedTimestamp = -1.0`,
`bIsDisplayedByGameLogic = false`, empty strings. -/
def initState : State :=
  { bIsDisplayingLoadingScreen := false
    LoadingScreenStateReason := ""
    LoadingScreenLastDismissedTimestamp := -1
    bIsDisplayedByGameLogic := false
    UserSpecifiedLoadingScreenReason := "" }

/-- Broadcasts of the two delegates, in the order the code performs
them. -/
inductive Event where
  | holdTimeStarted (holdTime : ℚ)
  | visibilityChanged (visibility : Bool)
  deriving DecidableEq, Repr

/-- `ULoadingScreenSubsystem::IsLoadingScreenDisplayed`. -/
def IsLoadingScreenDisplayed (s : State) : Bool :=
  s.bIsDisplayingLoadingScreen

/-- `ULoadingScreenSubsystem::ForceDisplayStateByGameLogic`: writes
`UserSpecifiedLoadingScreenReason` and `bIsDisplayedByGameLogic` and
does nothing else (no broadcast, no evaluation). -/
def ForceDisplayStateByGameLogic (Visibility : Bool) (Reason : String)
    (s : State) : State :=
  { s with
    UserSpecifiedLoadingScreenReason := Reason
    bIsDisplayedByGameLogic := Visibility }

/-- `ULoadingScreenSubsystem::IsWaitingForAdditionalTime`. -/
def IsWaitingForAdditionalTime (Settings : Settings) (s : State) : Bool :=
  if s.bIsDisplayingLoadingScreen = false then
    false
  else if Settings.HoldLoadingScreenAdditionalSecs ≤ 0 then
    false
  else if s.LoadingScreenLastDismissedTimestamp > 0 then
    true
  else
    false

/-- `ULoadingScreenSubsystem::GetAdditionalTimeRemaining`. -/
def GetAdditionalTimeRemaining (Settings : Settings) (env : Env)
    (s : State) : ℚ :=
  Settings.HoldLoadingScreenAdditionalSecs -
    (env.now - s.LoadingScreenLastDismissedTimestamp)

/-- `ULoadingScreenSubsystem::CheckForDisplayReason`: returns the bool
result and the updated subsystem state (the code mutates only
`LoadingScreenStateReason`). -/
def CheckForDisplayReason (Settings : Settings) (env : Env) (s : State) :
    Bool × State :=
  if Settings.bForceDisplayLoadingScreen = true then
    (true, { s with LoadingScreenStateReason :=
      "ForceDisplayLoadingScreen in settings is true" })
  else if !env.hasWorldContext then
    (true, { s with LoadingScreenStateReason :=
      "The game instance has a null WorldContext" })
  else if env.worldIsNull then
    (true, { s with LoadingScreenStateReason :=
      "We have no world is null, FWorldContext's World()" })
  else if !env.worldHasBegunPlay then
    (true, { s with LoadingScreenStateReason :=
      "World hasn't begun play" })
  else if s.bIsDisplayedByGameLogic = true then
    if s.UserSpecifiedLoadingScreenReason.isEmpty then
      (true, { s with LoadingScreenStateReason :=
        "Reason not specified in ForceDisplayStateByGameLogic. Assumed gameplay logic." })
    else
      (true, { s with LoadingScreenStateReason :=
        s.UserSpecifiedLoadingScreenReason })
  else
    (false, { s with LoadingScreenStateReason := "No reason to display." })

/-- The hold time actually used by `ShouldShowLoadingScreen`:
`HoldLoadingScreenAdditionalSecs`, forced to `0` when
`GIsEditor && !bShowLoadingScreenAdditionalSecsInEditor`. -/
def effectiveHoldTime (Settings : Settings) (env : Env) : ℚ :=
  if env.gIsEditor && !Settings.bShowLoadingScreenAdditionalSecsInEditor then
    0
  else
    Settings.HoldLoadingScreenAdditionalSecs

/-- The `FString::Printf` text of the grace-hold reason (the numeric
formatting of `%.2f` is abstracted to `toString`). -/
def holdReasonText (secs : ℚ) : String :=
  "Keeping loading screen up for an additional " ++ toString secs ++
    " seconds to allow texture streaming"

/-- `ULoadingScreenSubsystem::ShouldShowLoadingScreen`: returns the
decision, the updated state, and the delegate broadcasts it performed
(`OnHoldTimeTriggeredDelegate`). -/
def ShouldShowLoadingScreen (Settings : Settings) (env : Env) (s : State) :
    Bool × State × List Event :=
  let checked := CheckForDisplayReason Settings env s
  let bNeedToShowLoadingScreen := checked.1
  let s1 := checked.2
  if bNeedToShowLoadingScreen then
    (true, { s1 with LoadingScreenLastDismissedTimestamp := -1 }, [])
  else
    let CurrentTime := env.now
    let HoldLoadingScreenTime := effectiveHoldTime Settings env
    let stamped :=
      if s1.LoadingScreenLastDismissedTimestamp < 0 then
        ({ s1 with LoadingScreenLastDismissedTimestamp := CurrentTime },
         [Event.holdTimeStarted HoldLoadingScreenTime])
      else
        (s1, [])
    let s2 := stamped.1
    let events := stamped.2
    let TimeSinceScreenDismissed :=
      CurrentTime - s2.LoadingScreenLastDismissedTimestamp
    if HoldLoadingScreenTime > 0 ∧
        TimeSinceScreenDismissed < HoldLoadingScreenTime then
      (true,
       { s2 with LoadingScreenStateReason :=
          holdReasonText Settings.HoldLoadingScreenAdditionalSecs },
       events)
    else
      (false, s2, events)

/-- `ULoadingScreenSubsystem::ShowLoadingScreen`: early-outs when
already displaying, otherwise flips the flag and broadcasts
`OnVisibilityChangedDelegate(true)` (widget creation is presentation
glue, out of the model). -/
def ShowLoadingScreen (s : State) : State × List Event :=
  if s.bIsDisplayingLoadingScreen then
    (s, [])
  else
    ({ s with bIsDisplayingLoadingScreen := true },
     [Event.visibilityChanged true])

/-- `ULoadingScreenSubsystem::HideLoadingScreen`: early-outs when
already hidden, otherwise flips the flag and broadcasts
`OnVisibilityChangedDelegate(false)` after widget removal. -/
def HideLoadingScreen (s : State) : State × List Event :=
  if !s.bIsDisplayingLoadingScreen then
    (s, [])
  else
    ({ s with bIsDisplayingLoadingScreen := false },
     [Event.visibilityChanged false])

/-- `ULoadingScreenSubsystem::UpdateLoadingScreen`: one evaluate-and-apply
cycle (the trailing log line reads state but mutates nothing). -/
def UpdateLoadingScreen (Settings : Settings) (env : Env) (s : State) :
    State × List Event :=
  let decided := ShouldShowLoadingScreen Settings env s
  let applied :=
    if decided.1 then ShowLoadingScreen decided.2.1
    else HideLoadingScreen decided.2.1
  (applied.1, decided.2.2 ++ applied.2)

/-- Runs a sequence of evaluate-and-apply cycles, concatenating the
broadcasts in order. -/
def runUpdates : List (Settings × Env) → State → State × List Event
  | [], s => (s, [])
  | (st, env) :: rest, s =>
    let r := UpdateLoadingScreen st env s
    let r2 := runUpdates rest r.1
    (r2.1, r.2 ++ r2.2)

/-- Recognizer for `OnHoldTimeTriggeredDelegate` broadcasts. -/
def isHoldTimeEvent : Event → Bool
  | Event.holdTimeStarted _ => true
  | Event.visibilityChanged _ => false

/-- Recognizer for `OnVisibilityChangedDelegate` broadcasts. -/
def isVisibilityEvent : Event → Bool
  | Event.holdTimeStarted _ => false
  | Event.visibilityChanged _ => true

/-- Reachability of a subsystem state via evaluate-and-apply cycles
(ticks and the pre-load-map hook, with a positive platform clock) and
the public `ForceDisplayStateByGameLogic` command, starting from the
initial state.  The `Option` component records the settings and
environment of the most recent evaluation (`none` before the first
one); the command does not evaluate, so it keeps that record. -/
inductive Reach : State → Option (Settings × Env) → Prop where
  | init : Reach initState none
  | tick (st : Settings) (env : Env) (s : State)
      (o : Option (Settings × Env)) :
      Reach s o → 0 < env.now →
      Reach (UpdateLoadingScreen st env s).1 (some (st, env))
  | force (v : Bool) (r : String) (s : State)
      (o : Option (Settings × Env)) :
      Reach s o → Reach (ForceDisplayStateByGameLogic v r s) o

/-- The bool result of `CheckForDisplayReason` as a pure function of the
inputs it actually reads. -/
def checkNeed (st : Settings) (env : Env) (g : Bool) : Bool :=
  if st.bForceDisplayLoadingScreen = true then true
  else if !env.hasWorldContext then true
  else if env.worldIsNull then true
  else if !env.worldHasBegunPlay then true
  else if g = true then true
  else false

/-- The reason text stored by `CheckForDisplayReason` as a pure function
of the inputs it actually reads. -/
def checkReasonText (st : Settings) (env : Env) (g : Bool) (u : String) :
    String :=
  if st.bForceDisplayLoadingScreen = true then
    "ForceDisplayLoadingScreen in settings is true"
  else if !env.hasWorldContext then
    "The game instance has a null WorldContext"
  else if env.worldIsNull then
    "We have no world is null, FWorldContext's World()"
  else if !env.worldHasBegunPlay then
    "World hasn't begun play"
  else if g = true then
    (if u.isEmpty then
      "Reason not specified in ForceDisplayStateByGameLogic. Assumed gameplay logic."
    else u)
  else "No reason to display."

/-- Modelled from the spec (§4.1): the ordered (condition, reason text)
pairs of checks 1–5 of `evaluateBlockingReason`, in the spec's
first-match-wins order — configuration force, missing world context,
null world, world not begun play, game-logic override (whose reason is
the user-specified one when non-empty, else the default placeholder). -/
def orderedBlockingChecks (Settings : Settings) (env : Env)
    (forcedByGameLogicFlag : Bool) (userSpecifiedReason : String) :
    List (Bool × String) :=
  [(Settings.bForceDisplayLoadingScreen,
    "ForceDisplayLoadingScreen in settings is true"),
   (!env.hasWorldContext, "The game instance has a null WorldContext"),
   (env.worldIsNull, "We have no world is null, FWorldContext's World()"),
   (!env.worldHasBegunPlay, "World hasn't begun play"),
   (forcedByGameLogicFlag,
    if userSpecifiedReason.isEmpty then
      "Reason not specified in ForceDisplayStateByGameLogic. Assumed gameplay logic."
    else userSpecifiedReason)]

/-- Modelled from the spec (§4.1): first-match-wins evaluation of an
ordered check list; when no check matches, mustShow is false with the
no-reason text. -/
def firstMatchingCheck : List (Bool × String) → Bool × String
  | [] => (false, "No reason to display.")
  | (cond, reason) :: rest =>
    if cond then (true, reason) else firstMatchingCheck rest

/-- C1: `CheckForDisplayReason` is first-match-wins over the five
ordered checks — configuration force, missing world context, null
world, world not begun play, game-logic override — returning
mustShow = true with the reason text of the earliest matching check
(for check 5, the user-specified reason when non-empty, else a default
placeholder), and mustShow = false with the no-reason text exactly when
no check matches; the result state differs from the input state only in
the stored `LoadingScreenStateReason`. -/
theorem CheckForDisplayReason_firstMatchWins (st : Settings) (env : Env)
    (s : State) :
    CheckForDisplayReason st env s =
      ((firstMatchingCheck (orderedBlockingChecks st env
          s.bIsDisplayedByGameLogic s.UserSpecifiedLoadingScreenReason)).1,
       { s with LoadingScreenStateReason :=
          (firstMatchingCheck (orderedBlockingChecks st env
            s.bIsDisplayedByGameLogic s.UserSpecifiedLoadingScreenReason)).2 }) := by
  cases hf : st.bForceDisplayLoadingScreen <;>
    cases hc : env.hasWorldContext <;>
      cases hw : env.worldIsNull <;>
        cases hb : env.worldHasBegunPlay <;>
          cases hg : s.bIsDisplayedByGameLogic <;>
            cases he : s.UserSpecifiedLoadingScreenReason.isEmpty <;>
              simp [CheckForDisplayReason, orderedBlockingChecks,
                firstMatchingCheck, hf, hc, hw, hb, hg, he]

/-- C2: with `bForceDisplayLoadingScreen = true` in the settings,
`ShouldShowLoadingScreen` returns true for every state and every other
input. -/
theorem ShouldShowLoadingScreen_forceDisplay (st : Settings) (env : Env)
    (s : State) (h : st.bForceDisplayLoadingScreen = true) :
    (ShouldShowLoadingScreen st env s).1 = true := by
  simp [ShouldShowLoadingScreen, CheckForDisplayReason, h]

/-- Witness for C2 at a concrete forced configuration. -/
theorem ShouldShowLoadingScreen_forceDisplay_witness :
    (Settings.mk 2 true false false).bForceDisplayLoadingScreen = true ∧
    (ShouldShowLoadingScreen (Settings.mk 2 true false false)
      (Env.mk true false true false 100) initState).1 = true :=
  ⟨rfl, ShouldShowLoadingScreen_forceDisplay _ _ _ rfl⟩

/-- `CheckForDisplayReason` leaves the display flag unchanged. -/
theorem check_preserves_displayed (st : Settings) (env : Env) (s : State) :
    (CheckForDisplayReason st env s).2.bIsDisplayingLoadingScreen =
      s.bIsDisplayingLoadingScreen := by
  unfold CheckForDisplayReason; split_ifs <;> rfl

/-- `CheckForDisplayReason` leaves the dismissal timestamp unchanged. -/
theorem check_preserves_timestamp (st : Settings) (env : Env) (s : State) :
    (CheckForDisplayReason st env s).2.LoadingScreenLastDismissedTimestamp =
      s.LoadingScreenLastDismissedTimestamp := by
  unfold CheckForDisplayReason; split_ifs <;> rfl

/-- `CheckForDisplayReason` leaves the game-logic flag unchanged. -/
theorem check_preserves_gameLogic (st : Settings) (env : Env) (s : State) :
    (CheckForDisplayReason st env s).2.bIsDisplayedByGameLogic =
      s.bIsDisplayedByGameLogic := by
  unfold CheckForDisplayReason; split_ifs <;> rfl

/-- `CheckForDisplayReason` leaves the user-specified reason unchanged. -/
theorem check_preserves_userReason (st : Settings) (env : Env) (s : State) :
    (CheckForDisplayReason st env s).2.UserSpecifiedLoadingScreenReason =
      s.UserSpecifiedLoadingScreenReason := by
  unfold CheckForDisplayReason; split_ifs <;> rfl

/-- The bool result of `CheckForDisplayReason` depends only on the
settings, the environment, and the game-logic override flag. -/
theorem check_fst_congr (st : Settings) (env : Env) (s₁ s₂ : State)
    (h : s₁.bIsDisplayedByGameLogic = s₂.bIsDisplayedByGameLogic) :
    (CheckForDisplayReason st env s₁).1 =
      (CheckForDisplayReason st env s₂).1 := by
  unfold CheckForDisplayReason
  rw [h]
  split_ifs <;> rfl

/-- Evaluation when a blocking reason is present: return true, clear the
timestamp to the sentinel, broadcast nothing. -/
theorem shouldShow_of_check_true (st : Settings) (env : Env) (s : State)
    (h : (CheckForDisplayReason st env s).1 = true) :
    ShouldShowLoadingScreen st env s =
      (true,
       { (CheckForDisplayReason st env s).2 with
          LoadingScreenLastDismissedTimestamp := -1 },
       []) := by
  simp [ShouldShowLoadingScreen, h]

/-- Evaluation when no blocking reason is present and the timestamp is
unset: stamp the clock time, broadcast the hold time, then decide by
whether the effective hold time is positive. -/
theorem shouldShow_of_check_false_fresh (st : Settings) (env : Env)
    (s : State) (h : (CheckForDisplayReason st env s).1 = false)
    (hts : s.LoadingScreenLastDismissedTimestamp < 0) :
    ShouldShowLoadingScreen st env s =
      if 0 < effectiveHoldTime st env then
        (true,
         { (CheckForDisplayReason st env s).2 with
            LoadingScreenLastDismissedTimestamp := env.now
            LoadingScreenStateReason :=
              holdReasonText st.HoldLoadingScreenAdditionalSecs },
         [Event.holdTimeStarted (effectiveHoldTime st env)])
      else
        (false,
         { (CheckForDisplayReason st env s).2 with
            LoadingScreenLastDismissedTimestamp := env.now },
         [Event.holdTimeStarted (effectiveHoldTime st env)]) := by
  have hts' :
      (CheckForDisplayReason st env s).2.LoadingScreenLastDismissedTimestamp
        < 0 := by
    rw [check_preserves_timestamp]; exact hts
  simp only [ShouldShowLoadingScreen, h, Bool.false_eq_true, if_false,
    if_pos hts', sub_self]
  by_cases hp : 0 < effectiveHoldTime st env
  · rw [if_pos ⟨hp, hp⟩, if_pos hp]
  · rw [if_neg (by tauto), if_neg hp]

/-- Evaluation when no blocking reason is present and the timestamp is
already set: no broadcast, decide by the remaining grace window. -/
theorem shouldShow_of_check_false_stale (st : Settings) (env : Env)
    (s : State) (h : (CheckForDisplayReason st env s).1 = false)
    (hts : ¬ s.LoadingScreenLastDismissedTimestamp < 0) :
    ShouldShowLoadingScreen st env s =
      if 0 < effectiveHoldTime st env ∧
          env.now - s.LoadingScreenLastDismissedTimestamp <
            effectiveHoldTime st env then
        (true,
         { (CheckForDisplayReason st env s).2 with
            LoadingScreenStateReason :=
              holdReasonText st.HoldLoadingScreenAdditionalSecs },
         [])
      else
        (false, (CheckForDisplayReason st env s).2, []) := by
  simp [ShouldShowLoadingScreen, h, hts, check_preserves_timestamp]

/-- `ShowLoadingScreen` only sets the display flag. -/
theorem show_fst (s : State) :
    (ShowLoadingScreen s).1 = { s with bIsDisplayingLoadingScreen := true } := by
  unfold ShowLoadingScreen
  split_ifs with h
  · cases s; simp_all
  · rfl

/-- `HideLoadingScreen` only clears the display flag. -/
theorem hide_fst (s : State) :
    (HideLoadingScreen s).1 = { s with bIsDisplayingLoadingScreen := false } := by
  unfold HideLoadingScreen
  split_ifs with h
  · cases s; simp_all
  · rfl

/-- `ShowLoadingScreen` broadcasts exactly on the hidden-to-shown
transition. -/
theorem show_snd (s : State) :
    (ShowLoadingScreen s).2 =
      if s.bIsDisplayingLoadingScreen then [] else
        [Event.visibilityChanged true] := by
  unfold ShowLoadingScreen
  split_ifs <;> rfl

/-- `HideLoadingScreen` broadcasts exactly on the shown-to-hidden
transition. -/
theorem hide_snd (s : State) :
    (HideLoadingScreen s).2 =
      if s.bIsDisplayingLoadingScreen then [Event.visibilityChanged false]
      else [] := by
  unfold HideLoadingScreen
  split_ifs with h <;> simp_all

/-- `CheckForDisplayReason` decomposed into the two pure functions of
the inputs it reads, and the pure state update. -/
theorem check_eq (st : Settings) (env : Env) (s : State) :
    CheckForDisplayReason st env s =
      (checkNeed st env s.bIsDisplayedByGameLogic,
       { s with
          LoadingScreenStateReason :=
            checkReasonText st env s.bIsDisplayedByGameLogic
              s.UserSpecifiedLoadingScreenReason }) := by
  unfold CheckForDisplayReason checkNeed checkReasonText
  split_ifs <;> rfl

/-- Explicit characterization of one full evaluate-and-apply cycle: the
blocked branch, the grace-window branch, and the hide branch, with the
exact state fields and broadcasts of each. -/
theorem update_char (st : Settings) (env : Env) (s : State) :
    UpdateLoadingScreen st env s =
      if checkNeed st env s.bIsDisplayedByGameLogic then
        ({ s with
            LoadingScreenStateReason :=
              checkReasonText st env s.bIsDisplayedByGameLogic
                s.UserSpecifiedLoadingScreenReason
            LoadingScreenLastDismissedTimestamp := -1
            bIsDisplayingLoadingScreen := true },
         if s.bIsDisplayingLoadingScreen then [] else
           [Event.visibilityChanged true])
      else if 0 < effectiveHoldTime st env ∧
          env.now - (if s.LoadingScreenLastDismissedTimestamp < 0 then
            env.now else s.LoadingScreenLastDismissedTimestamp) <
            effectiveHoldTime st env then
        ({ s with
            LoadingScreenStateReason :=
              holdReasonText st.HoldLoadingScreenAdditionalSecs
            LoadingScreenLastDismissedTimestamp :=
              if s.LoadingScreenLastDismissedTimestamp < 0 then env.now
              else s.LoadingScreenLastDismissedTimestamp
            bIsDisplayingLoadingScreen := true },
         (if s.LoadingScreenLastDismissedTimestamp < 0 then
            [Event.holdTimeStarted (effectiveHoldTime st env)] else []) ++
           (if s.bIsDisplayingLoadingScreen then [] else
             [Event.visibilityChanged true]))
      else
        ({ s with
            LoadingScreenStateReason :=
              checkReasonText st env s.bIsDisplayedByGameLogic
                s.UserSpecifiedLoadingScreenReason
            LoadingScreenLastDismissedTimestamp :=
              if s.LoadingScreenLastDismissedTimestamp < 0 then env.now
              else s.LoadingScreenLastDismissedTimestamp
            bIsDisplayingLoadingScreen := false },
         (if s.LoadingScreenLastDismissedTimestamp < 0 then
            [Event.holdTimeStarted (effectiveHoldTime st env)] else []) ++
           (if s.bIsDisplayingLoadingScreen then [Event.visibilityChanged false]
            else [])) := by
  simp only [UpdateLoadingScreen, ShouldShowLoadingScreen, check_eq]
  split_ifs <;> simp_all [show_fst, show_snd, hide_fst, hide_snd, sub_self]

/-- C4: on every evaluation where a blocking reason is present
(`mustShow = true`), the cycle clears the dismissal timestamp back to
the `-1` sentinel, returns true so the indicator is displayed, and
`IsWaitingForAdditionalTime` is false afterwards — regardless of how far
a pending grace countdown had progressed. -/
theorem update_blocker_cancels_grace (st st' : Settings) (env : Env)
    (s : State) (h : (CheckForDisplayReason st env s).1 = true) :
    (ShouldShowLoadingScreen st env s).1 = true ∧
    (UpdateLoadingScreen st env s).1.LoadingScreenLastDismissedTimestamp
      = -1 ∧
    (UpdateLoadingScreen st env s).1.bIsDisplayingLoadingScreen = true ∧
    IsWaitingForAdditionalTime st' (UpdateLoadingScreen st env s).1
      = false := by
  have hs := shouldShow_of_check_true st env s h
  refine ⟨by rw [hs], ?_⟩
  by_cases hd : (CheckForDisplayReason st env s).2.bIsDisplayingLoadingScreen
  · simp [UpdateLoadingScreen, hs, ShowLoadingScreen, hd,
      IsWaitingForAdditionalTime]
  · simp [UpdateLoadingScreen, hs, ShowLoadingScreen, hd,
      IsWaitingForAdditionalTime]

/-- Witness for C4: a world that has not begun play while a grace hold
is in progress. -/
theorem update_blocker_cancels_grace_witness :
    (CheckForDisplayReason (Settings.mk 5 false false true)
      (Env.mk true false false false 102)
      { initState with
          bIsDisplayingLoadingScreen := true
          LoadingScreenLastDismissedTimestamp := 100 }).1 = true ∧
    (UpdateLoadingScreen (Settings.mk 5 false false true)
      (Env.mk true false false false 102)
      { initState with
          bIsDisplayingLoadingScreen := true
          LoadingScreenLastDismissedTimestamp :=
            100 }).1.LoadingScreenLastDismissedTimestamp = -1 := by
  refine ⟨by decide, ?_⟩
  exact (update_blocker_cancels_grace (Settings.mk 5 false false true)
    (Settings.mk 5 false false true) (Env.mk true false false false 102)
    { initState with
        bIsDisplayingLoadingScreen := true
        LoadingScreenLastDismissedTimestamp := 100 } (by decide)).2.1

/-- C5: in an editor-like environment with
`bShowLoadingScreenAdditionalSecsInEditor = false`, the effective hold
time is 0 whatever `HoldLoadingScreenAdditionalSecs` is configured to,
and every evaluation without a blocking reason already returns false,
so the cycle leaves the indicator hidden on that same evaluation with
no grace window. -/
theorem update_editor_suppresses_hold (st : Settings) (env : Env)
    (s : State) (hEd : env.gIsEditor = true)
    (hSh : st.bShowLoadingScreenAdditionalSecsInEditor = false)
    (hNeed : (CheckForDisplayReason st env s).1 = false) :
    effectiveHoldTime st env = 0 ∧
    (ShouldShowLoadingScreen st env s).1 = false ∧
    (UpdateLoadingScreen st env s).1.bIsDisplayingLoadingScreen = false := by
  have heff : effectiveHoldTime st env = 0 := by
    simp [effectiveHoldTime, hEd, hSh]
  have hdec : (ShouldShowLoadingScreen st env s).1 = false := by
    by_cases hts : s.LoadingScreenLastDismissedTimestamp < 0
    · rw [shouldShow_of_check_false_fresh st env s hNeed hts, heff]
      simp
    · rw [shouldShow_of_check_false_stale st env s hNeed hts, heff]
      simp
  refine ⟨heff, hdec, ?_⟩
  simp [UpdateLoadingScreen, hdec, hide_fst]

/-- Witness for C5: editor environment, hold configured to 5 seconds,
no blocking reason, fresh timestamp. -/
theorem update_editor_suppresses_hold_witness :
    (Env.mk true false true true 100).gIsEditor = true ∧
    (Settings.mk 5 false false
      false).bShowLoadingScreenAdditionalSecsInEditor = false ∧
    (CheckForDisplayReason (Settings.mk 5 false false false)
      (Env.mk true false true true 100)
      { initState with bIsDisplayingLoadingScreen := true }).1 = false ∧
    (UpdateLoadingScreen (Settings.mk 5 false false false)
      (Env.mk true false true true 100)
      { initState with
          bIsDisplayingLoadingScreen :=
            true }).1.bIsDisplayingLoadingScreen = false :=
  ⟨rfl, rfl, by decide,
   (update_editor_suppresses_hold (Settings.mk 5 false false false)
     (Env.mk true false true true 100)
     { initState with bIsDisplayingLoadingScreen := true }
     rfl rfl (by decide)).2.2⟩

/-- C10: when the effective hold time is 0, the evaluation on which the
last blocking reason clears (timestamp still unset) still stamps the
timestamp with the clock time and still broadcasts
`OnHoldTimeTriggeredDelegate` carrying 0, and the same cycle hides the
indicator, so a displayed indicator yields the broadcasts
hold-time-started(0) followed by visibility-changed(false). -/
theorem update_zero_hold_broadcasts (st : Settings) (env : Env) (s : State)
    (hEff : effectiveHoldTime st env = 0)
    (hNeed : (CheckForDisplayReason st env s).1 = false)
    (hts : s.LoadingScreenLastDismissedTimestamp < 0)
    (hDisp : s.bIsDisplayingLoadingScreen = true) :
    (UpdateLoadingScreen st env s).2 =
      [Event.holdTimeStarted 0, Event.visibilityChanged false] ∧
    (UpdateLoadingScreen st env s).1.bIsDisplayingLoadingScreen = false ∧
    (UpdateLoadingScreen st env s).1.LoadingScreenLastDismissedTimestamp
      = env.now := by
  have hs := shouldShow_of_check_false_fresh st env s hNeed hts
  rw [hEff] at hs
  simp only [lt_irrefl, if_false] at hs
  simp [UpdateLoadingScreen, hs, hide_fst, hide_snd,
    check_preserves_displayed, hDisp]

/-- Witness for C10: hold configured to 0 outside the editor, indicator
currently displayed, blocker just cleared. -/
theorem update_zero_hold_broadcasts_witness :
    effectiveHoldTime (Settings.mk 0 false false false)
      (Env.mk true false true false 100) = 0 ∧
    (UpdateLoadingScreen (Settings.mk 0 false false false)
      (Env.mk true false true false 100)
      { initState with bIsDisplayingLoadingScreen := true }).2 =
      [Event.holdTimeStarted 0, Event.visibilityChanged false] :=
  ⟨rfl,
   (update_zero_hold_broadcasts (Settings.mk 0 false false false)
     (Env.mk true false true false 100)
     { initState with bIsDisplayingLoadingScreen := true }
     rfl (by decide) (by decide) rfl).1⟩

/-- C9: `ForceDisplayStateByGameLogic` writes only
`bIsDisplayedByGameLogic` and `UserSpecifiedLoadingScreenReason`; the
display flag, the stored reason and the dismissal timestamp are taken
unchanged from the prior state, and the command (a pure field update in
this embedding, mirroring the source body) broadcasts nothing and runs
no evaluation. -/
theorem ForceDisplayStateByGameLogic_frame (v : Bool) (r : String)
    (s : State) :
    ForceDisplayStateByGameLogic v r s =
      { bIsDisplayingLoadingScreen := s.bIsDisplayingLoadingScreen
        LoadingScreenStateReason := s.LoadingScreenStateReason
        LoadingScreenLastDismissedTimestamp :=
          s.LoadingScreenLastDismissedTimestamp
        bIsDisplayedByGameLogic := v
        UserSpecifiedLoadingScreenReason := r } := rfl

/-- C8: the evaluate-and-apply cycle is idempotent — running
`UpdateLoadingScreen` a second time with the same settings, environment
and clock leaves the state exactly as after the first run and broadcasts
no `OnVisibilityChangedDelegate` event on the second run (showing while
already shown and hiding while already hidden are no-ops). -/
theorem update_idempotent (st : Settings) (env : Env) (s : State) :
    (UpdateLoadingScreen st env (UpdateLoadingScreen st env s).1).1 =
      (UpdateLoadingScreen st env s).1 ∧
    List.filter isVisibilityEvent
      (UpdateLoadingScreen st env (UpdateLoadingScreen st env s).1).2 = [] := by
  obtain ⟨d, r, ts, g, u⟩ := s
  by_cases hb : checkNeed st env g = true
  · have h1 : (UpdateLoadingScreen st env
        (State.mk d r ts g u)).1 =
        State.mk true (checkReasonText st env g u) (-1) g u := by
      rw [update_char]; simp [hb]
    rw [h1, update_char]
    simp [hb, isVisibilityEvent]
  · by_cases hts : ts < 0
    · by_cases hw : 0 < effectiveHoldTime st env
      · have h1 : (UpdateLoadingScreen st env (State.mk d r ts g u)).1 =
            State.mk true (holdReasonText st.HoldLoadingScreenAdditionalSecs)
              env.now g u := by
          rw [update_char]; simp [hb, hts, hw]
        rw [h1, update_char]
        by_cases hnow : env.now < 0
        · simp [hb, hw, hnow, isVisibilityEvent]
        · simp [hb, hw, hnow, isVisibilityEvent]
      · have h1 : (UpdateLoadingScreen st env (State.mk d r ts g u)).1 =
            State.mk false (checkReasonText st env g u) env.now g u := by
          rw [update_char]
          simp only [if_neg (by simp [hb] : ¬ (checkNeed st env
            (State.mk d r ts g u).bIsDisplayedByGameLogic = true))]
          rw [if_neg]
          · simp [hts]
          · simp [hts]
            exact le_of_not_lt hw
        rw [h1, update_char]
        by_cases hnow : env.now < 0
        · simp [hb, hw, hnow, isVisibilityEvent]
        · simp [hb, hw, hnow, isVisibilityEvent]
    · by_cases hw : 0 < effectiveHoldTime st env ∧
          env.now - ts < effectiveHoldTime st env
      · have h1 : (UpdateLoadingScreen st env (State.mk d r ts g u)).1 =
            State.mk true (holdReasonText st.HoldLoadingScreenAdditionalSecs)
              ts g u := by
          rw [update_char]; simp [hb, hts, hw]
        rw [h1, update_char]
        simp [hb, hts, hw, isVisibilityEvent]
      · have h1 : (UpdateLoadingScreen st env (State.mk d r ts g u)).1 =
            State.mk false (checkReasonText st env g u) ts g u := by
          rw [update_char]; simp [hb, hts, hw]
        rw [h1, update_char]
        simp [hb, hts, hw, isVisibilityEvent]

/-- C7: on states where the timestamp representation is well-formed
(the sentinel `-1`, or a positive clock value — every value the code
ever writes with a positive platform clock), `IsWaitingForAdditionalTime`
returns true exactly when the indicator is displayed, the dismissal
timestamp is set, and the configured hold seconds are strictly
positive. -/
theorem isWaiting_iff (st : Settings) (s : State)
    (hwf : s.LoadingScreenLastDismissedTimestamp = -1 ∨
      0 < s.LoadingScreenLastDismissedTimestamp) :
    IsWaitingForAdditionalTime st s = true ↔
      (s.bIsDisplayingLoadingScreen = true ∧
       s.LoadingScreenLastDismissedTimestamp ≠ -1 ∧
       0 < st.HoldLoadingScreenAdditionalSecs) := by
  unfold IsWaitingForAdditionalTime
  rcases hwf with h | h
  · rw [h]
    split_ifs with h1 h2 h3 <;> simp_all
    norm_num at h3
  · have hne : s.LoadingScreenLastDismissedTimestamp ≠ -1 := by
      intro he
      rw [he] at h
      norm_num at h
    split_ifs with h1 h2 <;> simp_all

/-- Witness for C7: displayed, timestamp set at clock time 100, hold of
2 seconds. -/
theorem isWaiting_iff_witness :
    ((State.mk true "" 100 false "").LoadingScreenLastDismissedTimestamp
        = -1 ∨
      0 < (State.mk true "" 100 false
        "").LoadingScreenLastDismissedTimestamp) ∧
    (IsWaitingForAdditionalTime (Settings.mk 2 false false false)
        (State.mk true "" 100 false "") = true ↔
      ((State.mk true "" 100 false "").bIsDisplayingLoadingScreen = true ∧
       (State.mk true "" 100 false "").LoadingScreenLastDismissedTimestamp
          ≠ -1 ∧
       0 < (Settings.mk 2 false false
         false).HoldLoadingScreenAdditionalSecs)) :=
  ⟨Or.inr (by norm_num),
   isWaiting_iff (Settings.mk 2 false false false)
     (State.mk true "" 100 false "") (Or.inr (by norm_num))⟩

theorem update_stale_no_hold (st : Settings) (env : Env) (s : State)
    (hb : checkNeed st env s.bIsDisplayedByGameLogic = false)
    (hts : 0 ≤ s.LoadingScreenLastDismissedTimestamp) :
    List.filter isHoldTimeEvent (UpdateLoadingScreen st env s).2 = [] ∧
    (UpdateLoadingScreen st env s).1.LoadingScreenLastDismissedTimestamp =
      s.LoadingScreenLastDismissedTimestamp ∧
    (UpdateLoadingScreen st env s).1.bIsDisplayedByGameLogic =
      s.bIsDisplayedByGameLogic := by
  rw [update_char]
  have hts' : ¬ s.LoadingScreenLastDismissedTimestamp < 0 := not_lt.mpr hts
  simp only [hb, Bool.false_eq_true, if_false, hts']
  split_ifs <;> simp [isHoldTimeEvent]

theorem runUpdates_no_hold (inputs : List (Settings × Env)) :
    ∀ s : State, 0 ≤ s.LoadingScreenLastDismissedTimestamp →
    (∀ p ∈ inputs, checkNeed p.1 p.2 s.bIsDisplayedByGameLogic = false) →
    List.filter isHoldTimeEvent (runUpdates inputs s).2 = [] := by
  induction inputs with
  | nil =>
    intro s _ _
    simp [runUpdates]
  | cons p rest ih =>
    intro s hts hall
    have hb := hall p (by simp)
    have hstep := update_stale_no_hold p.1 p.2 s hb hts
    simp only [runUpdates, List.filter_append, hstep.1, List.nil_append]
    apply ih
    · rw [hstep.2.1]
      exact hts
    · intro q hq
      rw [hstep.2.2]
      exact hall q (by simp [hq])

/-- C3: within one hold episode — a run of consecutive evaluations with
no blocking reason starting from an unset timestamp — the
`OnHoldTimeTriggeredDelegate` broadcast happens exactly once: on the
first evaluation, at the moment the timestamp transitions from unset to
the current clock time, carrying the effective (editor-override-aware)
hold time; the broadcasts of the whole episode contain exactly that one
hold-time event, regardless of how many further evaluations follow. -/
theorem holdTime_once_per_episode (st0 : Settings) (env0 : Env)
    (rest : List (Settings × Env)) (s : State)
    (hts : s.LoadingScreenLastDismissedTimestamp < 0)
    (hnow : 0 ≤ env0.now)
    (hb0 : checkNeed st0 env0 s.bIsDisplayedByGameLogic = false)
    (hrest : ∀ p ∈ rest,
      checkNeed p.1 p.2 s.bIsDisplayedByGameLogic = false) :
    (ShouldShowLoadingScreen st0 env0 s).2.2 =
      [Event.holdTimeStarted (effectiveHoldTime st0 env0)] ∧
    (ShouldShowLoadingScreen st0 env0
        s).2.1.LoadingScreenLastDismissedTimestamp = env0.now ∧
    List.filter isHoldTimeEvent (runUpdates ((st0, env0) :: rest) s).2 =
      [Event.holdTimeStarted (effectiveHoldTime st0 env0)] := by
  have hc0 : (CheckForDisplayReason st0 env0 s).1 = false := by
    rw [check_eq]
    exact hb0
  have hfresh := shouldShow_of_check_false_fresh st0 env0 s hc0 hts
  refine ⟨?_, ?_, ?_⟩
  · rw [hfresh]
    split_ifs <;> rfl
  · rw [hfresh]
    split_ifs <;> rfl
  · have hfirst :
        List.filter isHoldTimeEvent (UpdateLoadingScreen st0 env0 s).2 =
          [Event.holdTimeStarted (effectiveHoldTime st0 env0)] := by
      rw [update_char]
      simp only [hb0, Bool.false_eq_true, if_false, hts, if_true]
      split_ifs <;> simp [isHoldTimeEvent]
    have hsts :
        (UpdateLoadingScreen st0 env0
          s).1.LoadingScreenLastDismissedTimestamp = env0.now := by
      rw [update_char]
      simp only [hb0, Bool.false_eq_true, if_false, hts, if_true]
      split_ifs <;> rfl
    have hsg :
        (UpdateLoadingScreen st0 env0 s).1.bIsDisplayedByGameLogic =
          s.bIsDisplayedByGameLogic := by
      rw [update_char]
      split_ifs <;> rfl
    simp only [runUpdates, List.filter_append, hfirst]
    have hrest' :
        List.filter isHoldTimeEvent
          (runUpdates rest (UpdateLoadingScreen st0 env0 s).1).2 = [] := by
      apply runUpdates_no_hold
      · rw [hsts]
        exact hnow
      · intro q hq
        rw [hsg]
        exact hrest q hq
    rw [hrest']
    simp

/-- Witness for C3: a two-evaluation episode with hold of 2 seconds,
blocker cleared at clock 100, second evaluation at clock 101. -/
theorem holdTime_once_per_episode_witness :
    initState.LoadingScreenLastDismissedTimestamp < 0 ∧
    List.filter isHoldTimeEvent
      (runUpdates [(Settings.mk 2 false false false,
          Env.mk true false true false 100),
        (Settings.mk 2 false false false, Env.mk true false true false 101)]
        initState).2 =
      [Event.holdTimeStarted (effectiveHoldTime
        (Settings.mk 2 false false false)
        (Env.mk true false true false 100))] :=
  ⟨by decide,
   (holdTime_once_per_episode (Settings.mk 2 false false false)
     (Env.mk true false true false 100)
     [(Settings.mk 2 false false false, Env.mk true false true false 101)]
     initState (by decide) (by decide) (by decide)
     (by
       intro p hp
       simp only [List.mem_singleton] at hp
       subst hp
       decide)).2.2⟩

/-- Counterexample to C6 as stated: with the hold seconds configured to
0 and no blocking reason, one cycle from the initial state reaches a
state whose dismissal timestamp is set (to clock time 100) while the
indicator is NOT displayed — the code never clears the timestamp when
the grace window is absent or expired, it only clears it when a blocker
reappears. -/
theorem dismissed_without_display_reachable :
    Reach (UpdateLoadingScreen (Settings.mk 0 false false false)
        (Env.mk true false true false 100) initState).1
      (some (Settings.mk 0 false false false,
        Env.mk true false true false 100)) ∧
    (UpdateLoadingScreen (Settings.mk 0 false false false)
      (Env.mk true false true false 100)
      initState).1.LoadingScreenLastDismissedTimestamp = 100 ∧
    (UpdateLoadingScreen (Settings.mk 0 false false false)
      (Env.mk true false true false 100)
      initState).1.bIsDisplayingLoadingScreen = false :=
  ⟨Reach.tick _ _ initState none Reach.init (by norm_num),
   by decide, by decide⟩

/-- C6 amended: in every reachable state, a set dismissal timestamp
together with a displayed indicator implies the most recent evaluation
took the grace-window branch: its effective hold time was positive and
the elapsed time at that evaluation's clock was strictly below it.  (A
set timestamp alone does not imply the indicator is displayed: the
timestamp goes stale when the window is absent or has expired.) -/
theorem reach_grace_invariant (s : State) (o : Option (Settings × Env))
    (h : Reach s o) :
    s.bIsDisplayingLoadingScreen = true →
    0 ≤ s.LoadingScreenLastDismissedTimestamp →
    ∃ st env, o = some (st, env) ∧ 0 < effectiveHoldTime st env ∧
      env.now - s.LoadingScreenLastDismissedTimestamp <
        effectiveHoldTime st env := by
  induction h with
  | init =>
    intro hd _
    simp [initState] at hd
  | tick st env s' o' hr hnow ih =>
    intro hd hts
    by_cases hb : checkNeed st env s'.bIsDisplayedByGameLogic = true
    · have hval : (UpdateLoadingScreen st env
          s').1.LoadingScreenLastDismissedTimestamp = -1 := by
        rw [update_char]
        simp [hb]
      rw [hval] at hts
      norm_num at hts
    · by_cases hw : 0 < effectiveHoldTime st env ∧
          env.now - (if s'.LoadingScreenLastDismissedTimestamp < 0 then
            env.now else s'.LoadingScreenLastDismissedTimestamp) <
            effectiveHoldTime st env
      · refine ⟨st, env, rfl, hw.1, ?_⟩
        have hval : (UpdateLoadingScreen st env
            s').1.LoadingScreenLastDismissedTimestamp =
            (if s'.LoadingScreenLastDismissedTimestamp < 0 then env.now
              else s'.LoadingScreenLastDismissedTimestamp) := by
          rw [update_char]
          simp [hb, hw]
        rw [hval]
        exact hw.2
      · have hval : (UpdateLoadingScreen st env
            s').1.bIsDisplayingLoadingScreen = false := by
          rw [update_char]
          simp [hb, hw]
        rw [hval] at hd
        exact absurd hd (by simp)
  | force v r s' o' hr ih =>
    intro hd hts
    exact ih hd hts

/-- Witness for the amended C6: one cycle with hold of 2 seconds at
clock time 100 reaches a displayed state with the timestamp set, and
the invariant instantiates there. -/
theorem reach_grace_invariant_witness :
    ∃ st env,
      (some (Settings.mk 2 false false false,
          Env.mk true false true false 100) :
        Option (Settings × Env)) = some (st, env) ∧
      0 < effectiveHoldTime st env ∧
      env.now - (UpdateLoadingScreen (Settings.mk 2 false false false)
        (Env.mk true false true false 100)
        initState).1.LoadingScreenLastDismissedTimestamp <
        effectiveHoldTime st env := by
  have h1 : (UpdateLoadingScreen (Settings.mk 2 false false false)
      (Env.mk true false true false 100) initState).1 =
      State.mk true (holdReasonText 2) 100 false "" := by
    rw [update_char]
    norm_num [checkNeed, effectiveHoldTime, initState]
  exact reach_grace_invariant _ _
    (Reach.tick (Settings.mk 2 false false false)
      (Env.mk true false true false 100) initState none Reach.init
      (by norm_num))
    (by rw [h1]) (by rw [h1]; norm_num)

end DynamicLoadingScreen
